import Mathlib

/-!
Verification of the PRQL C/C++ binding contract ("libprqlc" / "libprql_lib"):
the staged compilation pipeline (PRQL source → PL → RQ → SQL), its structured
diagnostic model, configuration defaults, the legacy fixed-buffer adapter, and
the cross-boundary result-destruction contract.

The data model below is a shallow embedding of the declarations in
`src/prqlc/bindings/clib/libprqlc.hpp` and `src/prql-lib/libprql_lib.h`:
`MessageKind`, `Span`, `SourceLocation`, `Message`, `CompileResult`, `Options`.
The compiler core itself (parsing, name resolution, SQL generation) is out of
scope of the binding contract and is treated as a black box: it is modelled as
an abstract `CompilerCore` structure whose stage functions return output and
diagnostics, subject to the contract the specification states for it.
The stage driver functions (`compile`, `prql_to_pl`, `pl_to_rq`, `rq_to_sql`,
`result_destroy`, the legacy buffer form) are implemented in a Rust cdylib
that is not part of the staged sources; they are modelled from the
specification's words, as marked in each doc comment.
-/

namespace prqlc

/-- Compile message kind, from `libprqlc.hpp`. Currently only Error is
implemented by the upstream compiler, but Warning and Lint are declared. -/
inductive MessageKind where
  | Error
  | Warning
  | Lint
deriving DecidableEq, Repr

/-- Identifier of a location in source: offsets in terms of chars
(`struct Span` of `libprqlc.hpp`). -/
structure Span where
  start : Nat
  «end» : Nat
deriving DecidableEq, Repr

/-- Location within a source file, 0-based (`struct SourceLocation`). -/
structure SourceLocation where
  start_line : Nat
  start_col : Nat
  end_line : Nat
  end_col : Nat
deriving DecidableEq, Repr

/-- Compile result message (`struct Message` of `libprqlc.hpp`). Optional
pointer-to-pointer fields of the C struct become `Option`; `reason` is the
one field that is always present. -/
structure Message where
  kind : MessageKind
  code : Option String
  reason : String
  hint : Option String
  span : Option Span
  display : Option String
  location : Option SourceLocation
deriving DecidableEq, Repr

/-- Result of compilation (`struct CompileResult` of `libprqlc.hpp`):
an optional output text and an ordered sequence of messages. -/
structure CompileResult where
  output : Option String
  messages : List Message
deriving DecidableEq, Repr

/-- The `messages_len` field of the C struct: the length of `messages`. -/
def CompileResult.messages_len (r : CompileResult) : Nat :=
  r.messages.length

/-- Compilation options (`struct Options` of `libprqlc.hpp`). -/
structure Options where
  format : Bool
  target : String
  signature_comment : Bool
deriving DecidableEq, Repr

/-- Whether a message is of kind Error. -/
def Message.isError (m : Message) : Bool :=
  match m.kind with
  | MessageKind.Error => true
  | _ => false

/-- Whether a message list contains at least one Error-kind message. -/
def hasError (msgs : List Message) : Bool :=
  msgs.any Message.isError

/-- Outcome of one compiler-core stage: an optional product and the
diagnostics the core aggregated during that stage. -/
structure StageOut (α : Type) where
  output : Option α
  messages : List Message

/-- The core contract for one stage outcome, as the specification states it:
the product is absent exactly when the diagnostics contain an Error-kind
message (Warning/Lint alone leave the product present). -/
def StageOut.Ok {α : Type} (o : StageOut α) : Prop :=
  o.output = none ↔ hasError o.messages = true

/-- Modelled from the spec: the compiler core consumed by the bindings as a
black box ("text/IR in, text/IR + diagnostics out"). `PL` and `RQ` are its
opaque intermediate representations; serialization to the textual interchange
format round-trips losslessly between adjacent stages, and every stage
outcome satisfies the output/diagnostics contract. The core's implementation
is not part of the staged sources. -/
structure CompilerCore (PL RQ : Type) where
  parse : String → StageOut PL
  resolve : PL → StageOut RQ
  generate : RQ → Options → StageOut String
  serializePL : PL → String
  deserializePL : String → Except String PL
  serializeRQ : RQ → String
  deserializeRQ : String → Except String RQ
  parse_ok : ∀ q, (parse q).Ok
  resolve_ok : ∀ pl, (resolve pl).Ok
  generate_ok : ∀ rq opts, (generate rq opts).Ok
  deserialize_serializePL : ∀ pl, deserializePL (serializePL pl) = Except.ok pl
  deserialize_serializeRQ : ∀ rq, deserializeRQ (serializeRQ rq) = Except.ok rq

/-- The documented defaults of `struct Options`: `format = true`,
`target = "sql.any"`, `signature_comment = true`. -/
def defaultOptions : Options :=
  { format := true, target := "sql.any", signature_comment := true }

/-- Modelled from the spec: the configuration resolver — an absent (null)
`Options` argument resolves to the documented defaults, a present one is used
as given (no validation of the target string at resolution time). -/
def resolveOptions : Option Options → Options
  | none => defaultOptions
  | some o => o

/-- Modelled from the spec: the single interchange-error message a stage
returns when handed structurally invalid serialized IR — Error kind, the
deserialization failure as `reason`, and no span, location, code, hint or
display. -/
def interchangeMessage (reason : String) : Message :=
  { kind := MessageKind.Error, code := none, reason := reason,
    hint := none, span := none, display := none, location := none }

/-- Modelled from the spec: `prql_to_pl` of `libprqlc.hpp` (implementation is
a Rust cdylib outside the staged sources). Parses PRQL source and returns the
PL intermediate representation serialized to interchange text, together with
the diagnostics the core aggregated. -/
def prql_to_pl {PL RQ : Type} (core : CompilerCore PL RQ)
    (prql_query : String) : CompileResult :=
  let o := core.parse prql_query
  { output := o.output.map core.serializePL, messages := o.messages }

/-- Modelled from the spec: `pl_to_rq` of `libprqlc.hpp`. Deserializes the PL
interchange text (a structurally invalid input yields exactly one
interchange-error message), resolves it to RQ, and serializes the result. -/
def pl_to_rq {PL RQ : Type} (core : CompilerCore PL RQ)
    (pl_json : String) : CompileResult :=
  match core.deserializePL pl_json with
  | Except.error e => { output := none, messages := [interchangeMessage e] }
  | Except.ok pl =>
    let o := core.resolve pl
    { output := o.output.map core.serializeRQ, messages := o.messages }

/-- Modelled from the spec: `rq_to_sql` of `libprqlc.hpp`. Deserializes the
RQ interchange text and generates SQL under the resolved configuration. -/
def rq_to_sql {PL RQ : Type} (core : CompilerCore PL RQ)
    (rq_json : String) (options : Option Options) : CompileResult :=
  match core.deserializeRQ rq_json with
  | Except.error e => { output := none, messages := [interchangeMessage e] }
  | Except.ok rq =>
    let o := core.generate rq (resolveOptions options)
    { output := o.output, messages := o.messages }

/-- Modelled from the spec: `compile` of `libprqlc.hpp` — the composed
pipeline, "a wrapper for `prql_to_pl`, `pl_to_rq` and `rq_to_sql` without
converting to JSON between each of the functions", stopping at the first
stage whose product is absent. -/
def compile {PL RQ : Type} (core : CompilerCore PL RQ)
    (prql_query : String) (options : Option Options) : CompileResult :=
  let p := core.parse prql_query
  match p.output with
  | none => { output := none, messages := p.messages }
  | some pl =>
    let r := core.resolve pl
    match r.output with
    | none => { output := none, messages := r.messages }
    | some rq =>
      let g := core.generate rq (resolveOptions options)
      { output := g.output, messages := g.messages }

/-- Modelled from the spec: the C-boundary encoding of a result's `output`
field. The C struct holds a plain `const char *output` (not the
pointer-to-pointer pattern used for optional fields), so an absent output is
encoded as an empty string, never as a null pointer; `none` here would stand
for a null pointer and is never produced. -/
def cOutput (r : CompileResult) : Option String :=
  some (Option.getD r.output "")

/-- Truncate a string to at most `cap` characters (safe write into a
caller-supplied buffer of capacity `cap`). -/
def truncateTo (cap : Nat) (s : String) : String :=
  String.mk (s.data.take cap)

/-- The reason text of the first Error-kind message, or "" when none. -/
def firstErrorReason (msgs : List Message) : String :=
  match msgs.find? Message.isError with
  | some m => m.reason
  | none => ""

/-- Modelled from the spec: the legacy fixed-output-buffer `compile` form
(declared in the older `libprql_lib` generation and called by
`src/prql-lib/examples/basic-c/main.c`; its implementation is outside the
staged sources). A thin, lossy adapter over the structured form: status 0 on
success with the SQL text written to the buffer, a negative status on failure
with the first Error message's text written to the buffer, truncated to the
buffer's capacity. -/
def compile_to_buffer {PL RQ : Type} (core : CompilerCore PL RQ)
    (prql_query : String) (options : Option Options) (cap : Nat) :
    Int × String :=
  let r := compile core prql_query options
  if hasError r.messages then
    (-1, truncateTo cap (firstErrorReason r.messages))
  else
    (0, truncateTo cap (Option.getD r.output ""))

/-- Modelled from the spec: the process-visible state surrounding stage
invocations. The driver holds no cross-call mutable state; the only thing an
invocation changes is the history of calls made. -/
structure World where
  history : List String
deriving DecidableEq, Repr

/-- Modelled from the spec: performing one synchronous stage invocation in a
world — the stage function is applied to the input, and the invocation is
recorded in the history. -/
def invoke (stage : String → CompileResult) (w : World) (input : String) :
    CompileResult × World :=
  (stage input, World.mk (input :: w.history))

/-! ### The cross-boundary heap model for `result_destroy`

`result_destroy` frees a deep graph of heap allocations. The heap is modelled
as an association list from addresses to block contents; a C-level result is
a graph of addresses into that heap, with optional double-indirect fields
(`code`, `hint`, `display`) owning a pointer box and a string block, mirroring
`free_result` in `src/prql-lib/examples/minimal-c/main.c`. -/

/-- A heap of allocated blocks: address to contents. -/
abbrev Heap := List (Nat × String)

/-- Look an address up in the heap (first matching allocation). -/
def lookupH : Heap → Nat → Option String
  | [], _ => none
  | (b, v) :: t, a => if a = b then some v else lookupH t a

/-- Release one address: every block at that address leaves the heap. -/
def freeA (a : Nat) : Heap → Heap
  | [] => []
  | (b, v) :: t => if b = a then freeA a t else (b, v) :: freeA a t

/-- Release a list of addresses in order. -/
def freeAll (l : List Nat) (h : Heap) : Heap :=
  l.foldl (fun acc a => freeA a acc) h

/-- The C-level view of one `Message`: each owned field as the address(es) of
its allocation. A double-indirect optional field (`code`, `hint`, `display`)
owns the pointer box and the string it points to; `reason` is a single
always-present string; `span` and `location` are optional single blocks. -/
structure CMessage where
  code : Option (Nat × Nat)
  reason : Nat
  hint : Option (Nat × Nat)
  span : Option Nat
  display : Option (Nat × Nat)
  location : Option Nat
deriving DecidableEq, Repr

/-- Addresses owned by a double-indirect optional field: box and string. -/
def boxFootprint : Option (Nat × Nat) → List Nat
  | none => []
  | some (b, s) => [b, s]

/-- Addresses owned by a single-block optional field. -/
def optFootprint : Option Nat → List Nat
  | none => []
  | some a => [a]

/-- Every address a message owns: code box and string, reason string, hint
box and string, span, display box and string, location. -/
def CMessage.footprint (m : CMessage) : List Nat :=
  boxFootprint m.code ++ m.reason ::
    (boxFootprint m.hint ++ (boxFootprint m.display ++
      (optFootprint m.span ++ optFootprint m.location)))

/-- The C-level view of one `CompileResult`: the output string's address, the
messages with their owned fields, and the address of the messages array
storage itself. -/
structure CCompileResult where
  output : Nat
  messages : List CMessage
  messages_arr : Nat
deriving DecidableEq, Repr

/-- Every address a result owns: its output string, its messages array
storage, and every owned field of every message. -/
def CCompileResult.footprint (r : CCompileResult) : List Nat :=
  r.output :: r.messages_arr :: (r.messages.map CMessage.footprint).flatten

/-- Modelled from the spec: `result_destroy` of `libprqlc.hpp` (implementation
outside the staged sources; its field-by-field release order follows
`free_result` of `src/prql-lib/examples/minimal-c/main.c`). Recursively
releases the output string, every message's owned fields, and the messages
sequence storage. -/
def result_destroy (h : Heap) (r : CCompileResult) : Heap :=
  freeAll (CCompileResult.footprint r) h

/-! ### A small concrete compiler core

A fully executable instance of `CompilerCore` over `PL = RQ = String`, used to
exercise the driver theorems on concrete inputs. Parsing fails on the input
"pBAD", resolution fails on "rBAD" with two aggregated diagnostics,
generation fails on "gBAD"; interchange text marks PL with a leading 'P' and
RQ with a leading 'R', and generated SQL records the effective options. -/

/-- Parse stage of the test core: fails on "pBAD". -/
def testParse (q : String) : StageOut String :=
  if q = "pBAD" then
    { output := none, messages := [interchangeMessage "parse failed"] }
  else
    { output := some q, messages := [] }

/-- Resolve stage of the test core: fails on "rBAD" with two diagnostics. -/
def testResolve (pl : String) : StageOut String :=
  if pl = "rBAD" then
    { output := none,
      messages := [interchangeMessage "unknown name a",
                   interchangeMessage "unknown name b"] }
  else
    { output := some pl, messages := [] }

/-- Generate stage of the test core: fails on "gBAD"; otherwise the SQL text
records the input and the effective options. -/
def testGenerate (rq : String) (o : Options) : StageOut String :=
  if rq = "gBAD" then
    { output := none, messages := [interchangeMessage "unsupported construct"] }
  else
    { output := some ("SQL:" ++ rq ++ (cond o.format "+fmt" "") ++
        (cond o.signature_comment "+sig" "") ++ ":" ++ o.target),
      messages := [] }

/-- PL interchange serialization of the test core: a leading 'P'. -/
def testSerializePL (pl : String) : String :=
  String.mk ('P' :: pl.data)

/-- PL interchange deserialization of the test core. -/
def testDeserializePL (s : String) : Except String String :=
  match s.data with
  | 'P' :: r => Except.ok (String.mk r)
  | _ => Except.error "invalid PL interchange"

/-- RQ interchange serialization of the test core: a leading 'R'. -/
def testSerializeRQ (rq : String) : String :=
  String.mk ('R' :: rq.data)

/-- RQ interchange deserialization of the test core. -/
def testDeserializeRQ (s : String) : Except String String :=
  match s.data with
  | 'R' :: r => Except.ok (String.mk r)
  | _ => Except.error "invalid RQ interchange"

/-- The concrete test core. -/
def testCore : CompilerCore String String where
  parse := testParse
  resolve := testResolve
  generate := testGenerate
  serializePL := testSerializePL
  deserializePL := testDeserializePL
  serializeRQ := testSerializeRQ
  deserializeRQ := testDeserializeRQ
  parse_ok := by
    intro q
    unfold StageOut.Ok testParse
    split <;> simp [hasError, Message.isError, interchangeMessage]
  resolve_ok := by
    intro pl
    unfold StageOut.Ok testResolve
    split <;> simp [hasError, Message.isError, interchangeMessage]
  generate_ok := by
    intro rq opts
    unfold StageOut.Ok testGenerate
    split <;> simp [hasError, Message.isError, interchangeMessage]
  deserialize_serializePL := by
    intro pl
    rfl
  deserialize_serializeRQ := by
    intro rq
    rfl

/-! ### Helper lemmas -/

theorem hasError_interchange (e : String) :
    hasError [interchangeMessage e] = true := by
  simp [hasError, Message.isError, interchangeMessage]

theorem lookupH_freeA (a b : Nat) (h : Heap) :
    lookupH (freeA a h) b = if b = a then none else lookupH h b := by
  induction h with
  | nil => simp [freeA, lookupH]
  | cons p t ih =>
    obtain ⟨c, v⟩ := p
    by_cases hca : c = a
    · subst hca
      have hstep : freeA c ((c, v) :: t) = freeA c t := by
        simp [freeA]
      rw [hstep, ih]
      by_cases hbc : b = c <;> simp [lookupH, hbc]
    · have hstep : freeA a ((c, v) :: t) = (c, v) :: freeA a t := by
        simp [freeA, hca]
      rw [hstep]
      by_cases hbc : b = c
      · subst hbc
        simp [lookupH, hca]
      · simp [lookupH, hbc, ih]

theorem lookupH_freeAll (l : List Nat) (h : Heap) (b : Nat) :
    lookupH (freeAll l h) b = if b ∈ l then none else lookupH h b := by
  induction l generalizing h with
  | nil => simp [freeAll]
  | cons a t ih =>
    have step : freeAll (a :: t) h = freeAll t (freeA a h) := rfl
    rw [step, ih, lookupH_freeA]
    by_cases hbt : b ∈ t
    · simp [hbt]
    · by_cases hba : b = a <;> simp [hbt, hba, List.mem_cons]

theorem StageOut.Ok.map_eq {α β : Type} {o : StageOut α} (hok : o.Ok)
    (f : α → β) : (o.output.map f = none ↔ hasError o.messages = true) := by
  unfold StageOut.Ok at hok
  constructor
  · intro hm
    refine hok.mp ?_
    cases ho : o.output with
    | none => rfl
    | some x => rw [ho] at hm; simp at hm
  · intro he
    rw [hok.mpr he]
    rfl

theorem prql_to_pl_out_iff {PL RQ : Type} (core : CompilerCore PL RQ)
    (q : String) :
    ((prql_to_pl core q).output = none
      ↔ hasError (prql_to_pl core q).messages = true) := by
  simpa [prql_to_pl] using (core.parse_ok q).map_eq core.serializePL

theorem pl_to_rq_out_iff {PL RQ : Type} (core : CompilerCore PL RQ)
    (s : String) :
    ((pl_to_rq core s).output = none
      ↔ hasError (pl_to_rq core s).messages = true) := by
  cases hd : core.deserializePL s with
  | error e => simp [pl_to_rq, hd, hasError_interchange]
  | ok pl =>
    simpa [pl_to_rq, hd] using (core.resolve_ok pl).map_eq core.serializeRQ

theorem rq_to_sql_out_iff {PL RQ : Type} (core : CompilerCore PL RQ)
    (s : String) (c : Option Options) :
    ((rq_to_sql core s c).output = none
      ↔ hasError (rq_to_sql core s c).messages = true) := by
  cases hd : core.deserializeRQ s with
  | error e => simp [rq_to_sql, hd, hasError_interchange]
  | ok rq =>
    have hok := core.generate_ok rq (resolveOptions c)
    unfold StageOut.Ok at hok
    simpa [rq_to_sql, hd] using hok

theorem compile_out_iff {PL RQ : Type} (core : CompilerCore PL RQ)
    (q : String) (c : Option Options) :
    ((compile core q c).output = none
      ↔ hasError (compile core q c).messages = true) := by
  cases hpo : (core.parse q).output with
  | none =>
    have hp := core.parse_ok q
    unfold StageOut.Ok at hp
    rw [hpo] at hp
    simp [compile, hpo, hp.mp rfl]
  | some pl =>
    cases hro : (core.resolve pl).output with
    | none =>
      have hr := core.resolve_ok pl
      unfold StageOut.Ok at hr
      rw [hro] at hr
      simp [compile, hpo, hro, hr.mp rfl]
    | some rq =>
      have hg := core.generate_ok rq (resolveOptions c)
      unfold StageOut.Ok at hg
      simpa [compile, hpo, hro] using hg

/-! ### The claims -/

/-- C1: for every syntactically valid source query `q` and configuration `c`,
`compile q c` produces the same output as generating SQL from the resolved
form of the parsed form of `q`, whenever all three individual stage calls
succeed — the composed operation is a pure composition of the three stages. -/
theorem compile_is_stage_composition {PL RQ : Type} (core : CompilerCore PL RQ)
    (q : String) (c : Option Options) (plj rqj sql : String)
    (h1 : (prql_to_pl core q).output = some plj)
    (h2 : (pl_to_rq core plj).output = some rqj)
    (h3 : (rq_to_sql core rqj c).output = some sql) :
    (compile core q c).output = some sql := by
  cases hpo : (core.parse q).output with
  | none => simp [prql_to_pl, hpo] at h1
  | some plAst =>
    have hplj : core.serializePL plAst = plj := by
      simpa [prql_to_pl, hpo] using h1
    rw [← hplj] at h2
    simp [pl_to_rq, core.deserialize_serializePL] at h2
    cases hro : (core.resolve plAst).output with
    | none => rw [hro] at h2; simp at h2
    | some rqAst =>
      rw [hro] at h2
      simp at h2
      rw [← h2] at h3
      simp [rq_to_sql, core.deserialize_serializeRQ] at h3
      simp [compile, hpo, hro, h3]

/-- C1 witness: on the concrete test core, compiling "q" with default options
produces the SQL text the three chained stages produce. -/
theorem compile_is_stage_composition_witness :
    (compile testCore "q" none).output = some "SQL:q+fmt+sig:sql.any" :=
  compile_is_stage_composition testCore "q" none "Pq" "Rq"
    "SQL:q+fmt+sig:sql.any" (by decide) (by decide) (by decide)

/-- C2: for every result returned by a stage operation, `output` is absent
exactly when `messages` contains at least one Error-kind message; messages of
only Warning or Lint kind leave `output` present. -/
theorem output_absent_iff_error {PL RQ : Type} (core : CompilerCore PL RQ)
    (q plj rqj qc : String) (c copt : Option Options) :
    ((prql_to_pl core q).output = none
        ↔ hasError (prql_to_pl core q).messages = true)
  ∧ ((pl_to_rq core plj).output = none
        ↔ hasError (pl_to_rq core plj).messages = true)
  ∧ ((rq_to_sql core rqj c).output = none
        ↔ hasError (rq_to_sql core rqj c).messages = true)
  ∧ ((compile core qc copt).output = none
        ↔ hasError (compile core qc copt).messages = true) :=
  ⟨prql_to_pl_out_iff core q, pl_to_rq_out_iff core plj,
    rq_to_sql_out_iff core rqj c, compile_out_iff core qc copt⟩

/-- C3: the composed compile stops after the first stage whose result carries
an Error-kind message, returning exactly that stage's diagnostics; within a
single stage the driver returns the core's aggregated message list verbatim,
in discovery order, rather than failing fast on the first issue. -/
theorem compile_short_circuits_and_aggregates {PL RQ : Type}
    (core : CompilerCore PL RQ) (q : String) (c : Option Options) :
    (hasError (core.parse q).messages = true →
        compile core q c
          = { output := none, messages := (core.parse q).messages })
  ∧ (∀ pl, (core.parse q).output = some pl →
        hasError (core.resolve pl).messages = true →
        compile core q c
          = { output := none, messages := (core.resolve pl).messages })
  ∧ ((prql_to_pl core q).messages = (core.parse q).messages)
  ∧ (∀ pl, (pl_to_rq core (core.serializePL pl)).messages
        = (core.resolve pl).messages)
  ∧ (∀ rq, (rq_to_sql core (core.serializeRQ rq) c).messages
        = (core.generate rq (resolveOptions c)).messages) := by
  refine ⟨?_, ?_, ?_, ?_, ?_⟩
  · intro he
    have hp := core.parse_ok q
    unfold StageOut.Ok at hp
    simp [compile, hp.mpr he]
  · intro pl hpo he
    have hr := core.resolve_ok pl
    unfold StageOut.Ok at hr
    simp [compile, hpo, hr.mpr he]
  · simp [prql_to_pl]
  · intro pl
    simp [pl_to_rq, core.deserialize_serializePL]
  · intro rq
    simp [rq_to_sql, core.deserialize_serializeRQ]

/-- C3 witness: a parse failure returns exactly the parse diagnostics, and a
resolution failure returns exactly the resolver's two aggregated diagnostics
in order. -/
theorem compile_short_circuits_witness :
    compile testCore "pBAD" none
      = { output := none, messages := [interchangeMessage "parse failed"] }
  ∧ compile testCore "rBAD" none
      = { output := none,
          messages := [interchangeMessage "unknown name a",
                       interchangeMessage "unknown name b"] } :=
  ⟨((compile_short_circuits_and_aggregates testCore "pBAD" none).1
      (by decide)).trans (by decide),
   ((compile_short_circuits_and_aggregates testCore "rBAD" none).2.1 "rBAD"
      (by decide) (by decide)).trans (by decide)⟩

/-- C4: destroying a result once releases its output string, every message's
owned fields and the messages storage (everything in its footprint leaves the
heap), and leaves every address of a disjointly-allocated, independently-held
result untouched and readable. -/
theorem result_destroy_frees_and_frames (h : Heap) (r r2 : CCompileResult)
    (hdisj : ∀ a ∈ CCompileResult.footprint r,
        a ∉ CCompileResult.footprint r2) :
    lookupH (result_destroy h r) r.output = none
  ∧ lookupH (result_destroy h r) r.messages_arr = none
  ∧ (∀ m ∈ r.messages, lookupH (result_destroy h r) m.reason = none)
  ∧ (∀ a ∈ CCompileResult.footprint r, lookupH (result_destroy h r) a = none)
  ∧ (∀ a ∈ CCompileResult.footprint r2,
        lookupH (result_destroy h r) a = lookupH h a) := by
  have key : ∀ a, lookupH (result_destroy h r) a
      = if a ∈ CCompileResult.footprint r then none else lookupH h a :=
    fun a => lookupH_freeAll (CCompileResult.footprint r) h a
  refine ⟨?_, ?_, ?_, ?_, ?_⟩
  · rw [key]
    simp [CCompileResult.footprint]
  · rw [key]
    simp [CCompileResult.footprint]
  · intro m hm
    rw [key]
    have h1 : m.reason ∈ CMessage.footprint m := by
      simp [CMessage.footprint]
    have h2 : CMessage.footprint m ∈ r.messages.map CMessage.footprint :=
      List.mem_map_of_mem CMessage.footprint hm
    have h3 : m.reason ∈ (r.messages.map CMessage.footprint).flatten :=
      List.mem_flatten.mpr ⟨CMessage.footprint m, h2, h1⟩
    have h4 : m.reason ∈ CCompileResult.footprint r := by
      simp [CCompileResult.footprint, h3]
    simp [h4]
  · intro a ha
    rw [key]
    simp [ha]
  · intro a ha2
    rw [key]
    have hnot : a ∉ CCompileResult.footprint r := fun har => hdisj a har ha2
    simp [hnot]

/-- A concrete heap holding two disjoint result graphs. -/
def testHeap : Heap :=
  [(0, "sql out"), (1, "msg arr"), (2, "reason"), (3, "span"),
   (10, "sql out 2"), (11, "msg arr 2"), (12, "reason 2")]

/-- A concrete C-level result owning addresses 0, 1, 2 and 3. -/
def testCRes1 : CCompileResult :=
  { output := 0,
    messages := [{ code := none, reason := 2, hint := none,
                   span := some 3, display := none, location := none }],
    messages_arr := 1 }

/-- A second, independently-held C-level result owning 10, 11 and 12. -/
def testCRes2 : CCompileResult :=
  { output := 10,
    messages := [{ code := none, reason := 12, hint := none,
                   span := none, display := none, location := none }],
    messages_arr := 11 }

/-- C4 witness: destroying the first result frees its output string and spares
the second result's blocks byte for byte. -/
theorem result_destroy_witness :
    lookupH (result_destroy testHeap testCRes1) 0 = none
  ∧ lookupH (result_destroy testHeap testCRes1) 3 = none
  ∧ lookupH (result_destroy testHeap testCRes1) 10 = some "sql out 2" := by
  have hmain := result_destroy_frees_and_frames testHeap testCRes1 testCRes2
    (by decide)
  exact ⟨hmain.2.2.2.1 0 (by decide), hmain.2.2.2.1 3 (by decide),
    (hmain.2.2.2.2 10 (by decide)).trans (by decide)⟩

/-- C5: a stage handed structurally invalid serialized IR returns exactly one
message carrying the deserialization failure as its reason, with no span and
no source location, and no output. -/
theorem interchange_error_single_message {PL RQ : Type}
    (core : CompilerCore PL RQ) (s t e f : String) (c : Option Options)
    (h1 : core.deserializePL s = Except.error e)
    (h2 : core.deserializeRQ t = Except.error f) :
    pl_to_rq core s = { output := none, messages := [interchangeMessage e] }
  ∧ rq_to_sql core t c
      = { output := none, messages := [interchangeMessage f] }
  ∧ (pl_to_rq core s).messages_len = 1
  ∧ (∀ m ∈ (pl_to_rq core s).messages,
        m.span = none ∧ m.location = none ∧ m.reason = e
          ∧ m.kind = MessageKind.Error)
  ∧ (pl_to_rq core s).output = none := by
  refine ⟨?_, ?_, ?_, ?_, ?_⟩
  · simp [pl_to_rq, h1]
  · simp [rq_to_sql, h2]
  · simp [pl_to_rq, h1, CompileResult.messages_len]
  · intro m hm
    simp [pl_to_rq, h1] at hm
    simp [hm, interchangeMessage]
  · simp [pl_to_rq, h1]

/-- C5 witness: feeding the test core's `pl_to_rq` a malformed interchange
string yields the single span-less, location-less interchange error. -/
theorem interchange_error_witness :
    pl_to_rq testCore "x"
      = { output := none,
          messages := [interchangeMessage "invalid PL interchange"] } :=
  (interchange_error_single_message testCore "x" "y"
    "invalid PL interchange" "invalid RQ interchange" none rfl rfl).1

/-- C6: an absent configuration resolves to the documented defaults
(format true, target "sql.any", signature_comment true); a present one — any
target string included — is used exactly as given; and the messages of the
generation stage are exactly the core's generation diagnostics, so an unknown
target surfaces there and not at resolution time. -/
theorem options_resolution_defaults {PL RQ : Type} (core : CompilerCore PL RQ)
    (o : Options) (s : String) (rq : RQ) (c : Option Options)
    (h : core.deserializeRQ s = Except.ok rq) :
    resolveOptions none
      = { format := true, target := "sql.any", signature_comment := true }
  ∧ resolveOptions (some o) = o
  ∧ (rq_to_sql core s c).messages
      = (core.generate rq (resolveOptions c)).messages := by
  refine ⟨rfl, rfl, ?_⟩
  simp [rq_to_sql, h]

/-- C6 witness: an unknown dialect identifier passes configuration resolution
untouched. -/
theorem options_resolution_witness :
    resolveOptions (some (Options.mk false "sql.no-such-dialect" false))
      = Options.mk false "sql.no-such-dialect" false :=
  (options_resolution_defaults testCore
    (Options.mk false "sql.no-such-dialect" false) "Rt" "t" none rfl).2.1

/-- C7: the independently-callable SQL generation stage accepts serialized RQ
plus an optional configuration, and the SQL it outputs is the core's
generation under exactly that configuration (defaults when absent), carrying
the caller's `format` and `signature_comment` settings. -/
theorem rq_to_sql_accepts_config {PL RQ : Type} (core : CompilerCore PL RQ)
    (s : String) (rq : RQ) (o : Options)
    (h : core.deserializeRQ s = Except.ok rq) :
    (rq_to_sql core s (some o)).output = (core.generate rq o).output
  ∧ (rq_to_sql core s none).output
      = (core.generate rq defaultOptions).output := by
  constructor <;> simp [rq_to_sql, h, resolveOptions]

/-- C7 witness: with format and signature_comment disabled and an explicit
dialect, the generated SQL of the test core carries neither the formatting
mark nor the signature mark. -/
theorem rq_to_sql_accepts_config_witness :
    (rq_to_sql testCore "Rt" (some (Options.mk false "sql.mssql" false))).output
      = some "SQL:t:sql.mssql" :=
  ((rq_to_sql_accepts_config testCore "Rt" "t"
    (Options.mk false "sql.mssql" false) rfl).1).trans (by decide)

/-- C8: every stage operation is deterministic in its input and
configuration — invoking the same stage twice on the same input, the second
time from whatever world the first invocation left behind, returns the same
result: same output and the same messages in the same order. -/
theorem stage_invocations_deterministic {PL RQ : Type}
    (core : CompilerCore PL RQ) (q plj rqj : String) (c : Option Options)
    (w : World) :
    (invoke (fun s => compile core s c) w q).1
      = (invoke (fun s => compile core s c)
          (invoke (fun s => compile core s c) w q).2 q).1
  ∧ (invoke (prql_to_pl core) w q).1
      = (invoke (prql_to_pl core) (invoke (prql_to_pl core) w q).2 q).1
  ∧ (invoke (pl_to_rq core) w plj).1
      = (invoke (pl_to_rq core) (invoke (pl_to_rq core) w plj).2 plj).1
  ∧ (invoke (fun s => rq_to_sql core s c) w rqj).1
      = (invoke (fun s => rq_to_sql core s c)
          (invoke (fun s => rq_to_sql core s c) w rqj).2 rqj).1 :=
  ⟨rfl, rfl, rfl, rfl⟩

/-- C9: the legacy fixed-output-buffer compile form is a lossy adapter over
the structured form: its status is 0 exactly when the structured compilation
yields no Error message and negative exactly when it does; what it writes
never exceeds the buffer's capacity; and on failure the buffer receives the
first Error message's text, truncated safely. -/
theorem compile_to_buffer_adapter {PL RQ : Type} (core : CompilerCore PL RQ)
    (q : String) (c : Option Options) (cap : Nat) :
    ((compile_to_buffer core q c cap).1 = 0
        ↔ hasError (compile core q c).messages = false)
  ∧ ((compile_to_buffer core q c cap).1 < 0
        ↔ hasError (compile core q c).messages = true)
  ∧ (compile_to_buffer core q c cap).2.length ≤ cap
  ∧ (hasError (compile core q c).messages = true →
        (compile_to_buffer core q c cap).2
          = truncateTo cap (firstErrorReason (compile core q c).messages)) := by
  have hlen : ∀ s : String, (truncateTo cap s).length ≤ cap := by
    intro s
    have heq : (truncateTo cap s).length = (s.data.take cap).length := rfl
    rw [heq, List.length_take]
    exact min_le_left cap s.data.length
  by_cases he : hasError (compile core q c).messages = true
  · refine ⟨?_, ?_, ?_, ?_⟩
    · simp [compile_to_buffer, he]
    · simp [compile_to_buffer, he]
    · simp only [compile_to_buffer, he, if_true]
      exact hlen _
    · intro _
      simp [compile_to_buffer, he]
  · have he' : hasError (compile core q c).messages = false :=
      Bool.not_eq_true _ ▸ eq_false_of_ne_true he
    refine ⟨?_, ?_, ?_, ?_⟩
    · simp [compile_to_buffer, he']
    · simp [compile_to_buffer, he']
    · simp only [compile_to_buffer, he', Bool.false_eq_true, if_false]
      exact hlen _
    · intro habs
      rw [habs] at he'
      cases he'

/-- C9 witness: compiling a failing query through the legacy adapter with a
5-byte buffer yields a negative status and the first error's text truncated
to "parse". -/
theorem compile_to_buffer_witness :
    (compile_to_buffer testCore "pBAD" none 5).2 = "parse"
  ∧ (compile_to_buffer testCore "pBAD" none 5).1 < 0 :=
  ⟨(((compile_to_buffer_adapter testCore "pBAD" none 5).2.2.2)
      (by decide)).trans (by decide),
   ((compile_to_buffer_adapter testCore "pBAD" none 5).2.1).mpr (by decide)⟩

/-- C10: at the C boundary the output field of every stage's result is a
present, non-null string — failure is encoded as an empty output string
together with Error messages, never as a null pointer — and on success the
dereferenced output is the stage's product. -/
theorem output_never_null {PL RQ : Type} (core : CompilerCore PL RQ)
    (q plj rqj qc : String) (c c2 : Option Options) :
    cOutput (compile core qc c) ≠ none
  ∧ cOutput (prql_to_pl core q) ≠ none
  ∧ cOutput (pl_to_rq core plj) ≠ none
  ∧ cOutput (rq_to_sql core rqj c2) ≠ none
  ∧ (hasError (compile core qc c).messages = true →
        cOutput (compile core qc c) = some "")
  ∧ (∀ s, (compile core qc c).output = some s →
        cOutput (compile core qc c) = some s) := by
  refine ⟨by simp [cOutput], by simp [cOutput], by simp [cOutput],
    by simp [cOutput], ?_, ?_⟩
  · intro he
    have hnone : (compile core qc c).output = none :=
      (compile_out_iff core qc c).mpr he
    simp [cOutput, hnone]
  · intro s hs
    simp [cOutput, hs]

/-- C10 witness: on a failing compilation the C-level output is the empty
string, not null. -/
theorem output_never_null_witness :
    cOutput (compile testCore "pBAD" none) = some "" :=
  (output_never_null testCore "x" "y" "z" "pBAD" none none).2.2.2.2.1
    (by decide)

end prqlc
